import Mathlib

/-!
Shallow embedding of the entitlement/usage-metering core of the
CareerPilot backend: the Subscription and User mongoose models
(`backend/src/models/Subscription.ts`, `backend/src/models/User.ts`)
and the `SubscriptionService` (`backend/src/services/subscriptionService.ts`).
Machine numbers are modelled as `Int` (JS numbers used here are integers and
never approach overflow); fallible service calls return `Except ApiErr`.
Mongoose documents become plain structures, a `save` becomes the explicit
application of the schema's pre-save middleware.
-/

/-- Subscription plan tier, `plan ∈ {free, pro, enterprise}`. -/
inductive Plan where
  | free
  | pro
  | enterprise
deriving DecidableEq, Repr

/-- Subscription document status. -/
inductive SubStatus where
  | active
  | cancelled
  | expired
  | pending
  | trial
deriving DecidableEq, Repr

/-- Status of the denormalized `User.subscription` sub-document. -/
inductive UserSubStatus where
  | active
  | cancelled
  | expired
  | none
deriving DecidableEq, Repr

/-- User role, a cached view of the entitlement tier. -/
inductive Role where
  | free
  | pro
  | admin
deriving DecidableEq, Repr

/-- A calendar date as the JS code observes it: `getFullYear` and `getMonth`
(month is 0-based in JS; only year and month are read by the core logic). -/
structure Date where
  year : Int
  month : Int
deriving DecidableEq, Repr

/-- A counted feature whose limit field is named `monthlyLimit`
(resumeAnalysis, interviews, linkedInReview). -/
structure MonthlyFeature where
  enabled : Bool
  monthlyLimit : Int
  used : Int
deriving DecidableEq, Repr

/-- A counted feature whose limit field is named `weeklyLimit` (jobMatches). -/
structure WeeklyFeature where
  enabled : Bool
  weeklyLimit : Int
  used : Int
deriving DecidableEq, Repr

/-- A capacity feature (roadmaps): no usage counter. -/
structure CapacityFeature where
  enabled : Bool
  maxActive : Int
deriving DecidableEq, Repr

/-- The apiAccess feature: enabled flag plus a rate limit, no usage counter. -/
structure ApiAccessFeature where
  enabled : Bool
  rateLimit : Int
deriving DecidableEq, Repr

/-- The `features` object of a Subscription document, field for field. -/
structure Features where
  resumeAnalysis : MonthlyFeature
  interviews : MonthlyFeature
  jobMatches : WeeklyFeature
  roadmaps : CapacityFeature
  linkedInReview : MonthlyFeature
  apiAccess : ApiAccessFeature
  prioritySupport : Bool
  customBranding : Bool
deriving DecidableEq, Repr

/-- The JS value `subscription.features[featureName]`: one of the six object
shapes, a plain boolean, or `undefined` for a key that is not present. -/
inductive FeatureValue where
  | monthly (f : MonthlyFeature)
  | weekly (f : WeeklyFeature)
  | capacity (f : CapacityFeature)
  | api (f : ApiAccessFeature)
  | bool (b : Bool)
  | missing
deriving DecidableEq, Repr

/-- Bracket lookup `features[featureName]` on the eight known keys. -/
def Features.lookup (fs : Features) (name : String) : FeatureValue :=
  if name = "resumeAnalysis" then .monthly fs.resumeAnalysis
  else if name = "interviews" then .monthly fs.interviews
  else if name = "jobMatches" then .weekly fs.jobMatches
  else if name = "roadmaps" then .capacity fs.roadmaps
  else if name = "linkedInReview" then .monthly fs.linkedInReview
  else if name = "apiAccess" then .api fs.apiAccess
  else if name = "prioritySupport" then .bool fs.prioritySupport
  else if name = "customBranding" then .bool fs.customBranding
  else .missing

/-- JS test `typeof feature === 'object' && feature !== null`. -/
def FeatureValue.isObject : FeatureValue → Bool
  | .bool _ => false
  | .missing => false
  | _ => true

/-- JS test `'enabled' in feature && feature.enabled` for object values. -/
def FeatureValue.enabledFlag : FeatureValue → Bool
  | .monthly f => f.enabled
  | .weekly f => f.enabled
  | .capacity f => f.enabled
  | .api f => f.enabled
  | _ => false

/-- JS expression `'monthlyLimit' in feature ? feature.monthlyLimit : -1`. -/
def FeatureValue.limitField : FeatureValue → Int
  | .monthly f => f.monthlyLimit
  | _ => -1

/-- JS expression `'used' in feature ? feature.used : 0`. -/
def FeatureValue.usedField : FeatureValue → Int
  | .monthly f => f.used
  | .weekly f => f.used
  | _ => 0

/-- The `planFeatures` table of the Subscription schema's pre-save middleware:
the full features template for each plan (all `used` fields start at 0). -/
def planFeatures : Plan → Features
  | .free =>
    { resumeAnalysis := ⟨true, 3, 0⟩
      interviews := ⟨true, 1, 0⟩
      jobMatches := ⟨false, 0, 0⟩
      roadmaps := ⟨true, 1⟩
      linkedInReview := ⟨true, 1, 0⟩
      apiAccess := ⟨false, 100⟩
      prioritySupport := false
      customBranding := false }
  | .pro =>
    { resumeAnalysis := ⟨true, -1, 0⟩
      interviews := ⟨true, -1, 0⟩
      jobMatches := ⟨true, 10, 0⟩
      roadmaps := ⟨true, 3⟩
      linkedInReview := ⟨true, -1, 0⟩
      apiAccess := ⟨true, 1000⟩
      prioritySupport := true
      customBranding := false }
  | .enterprise =>
    { resumeAnalysis := ⟨true, -1, 0⟩
      interviews := ⟨true, -1, 0⟩
      jobMatches := ⟨true, -1, 0⟩
      roadmaps := ⟨true, 10⟩
      linkedInReview := ⟨true, -1, 0⟩
      apiAccess := ⟨true, 10000⟩
      prioritySupport := true
      customBranding := true }

/-- The `paymentDetails` sub-document (the fields the core reads/writes). -/
structure PaymentDetails where
  stripeCustomerId : Option String
  stripeSubscriptionId : Option String
deriving DecidableEq, Repr

/-- The `cancellation` sub-document stamped by a cancel transition. -/
structure Cancellation where
  cancelledAt : Date
  reason : Option String
  feedback : Option String
deriving DecidableEq, Repr

/-- One entry of the `renewals` array. -/
structure Renewal where
  date : Date
  amount : Int
  success : Bool
deriving DecidableEq, Repr

/-- A Subscription document (the fields the metering core touches). -/
structure Subscription where
  plan : Plan
  status : SubStatus
  startDate : Date
  endDate : Date
  paymentDetails : PaymentDetails
  features : Features
  cancellation : Option Cancellation
  renewals : List Renewal
deriving DecidableEq, Repr

/-- The Subscription schema's pre-save middleware: when the `plan` path is
modified, the whole `features` object is replaced by the plan's template;
otherwise the document is saved unchanged. -/
def saveSubscription (sub : Subscription) (planModified : Bool) : Subscription :=
  if planModified then { sub with features := planFeatures sub.plan }
  else sub

/-- A plan swap as the persistence layer performs it: assign the new plan
(marking the `plan` path modified) and save, firing the pre-save middleware. -/
def swapPlan (sub : Subscription) (newPlan : Plan) : Subscription :=
  saveSubscription { sub with plan := newPlan } true

/-- `SubscriptionSchema.methods.checkUsageLimit`: fetch `features[name]`;
when it is an object carrying `monthlyLimit`, return
`limit === -1 || used < limit`; in every other case return `true`. -/
def checkUsageLimit (fs : Features) (name : String) : Bool :=
  match fs.lookup name with
  | .monthly f => f.monthlyLimit == -1 || f.used < f.monthlyLimit
  | _ => true

/-- In-place `feature.used += 1` on `features[name]`, performed exactly when
the looked-up value is an object carrying a `used` field (the four counted
features); any other name leaves the structure untouched. -/
def Features.incrementUsed (fs : Features) (name : String) : Features :=
  if name = "resumeAnalysis" then
    { fs with resumeAnalysis := { fs.resumeAnalysis with used := fs.resumeAnalysis.used + 1 } }
  else if name = "interviews" then
    { fs with interviews := { fs.interviews with used := fs.interviews.used + 1 } }
  else if name = "jobMatches" then
    { fs with jobMatches := { fs.jobMatches with used := fs.jobMatches.used + 1 } }
  else if name = "linkedInReview" then
    { fs with linkedInReview := { fs.linkedInReview with used := fs.linkedInReview.used + 1 } }
  else fs

/-- `SubscriptionSchema.methods.incrementUsage`: bump the counter and save
(the save does not modify `plan`, so the pre-save middleware is a no-op). -/
def Subscription.incrementUsage (sub : Subscription) (name : String) : Subscription :=
  saveSubscription { sub with features := sub.features.incrementUsed name } false

/-- The `User.usage` sub-document: the free-tier usage ledger. Its only
keys are `resumeAnalysisCount`, `interviewSessionsCount`, `lastResetDate`. -/
structure Usage where
  resumeAnalysisCount : Int
  interviewSessionsCount : Int
  lastResetDate : Date
deriving DecidableEq, Repr

/-- The denormalized `User.subscription` sub-document. -/
structure UserSubscription where
  status : UserSubStatus
  plan : Plan
  startDate : Option Date
  endDate : Option Date
  stripeCustomerId : Option String
  stripeSubscriptionId : Option String
deriving DecidableEq, Repr

/-- A User document (the fields the metering core touches). -/
structure UserRec where
  role : Role
  subscription : UserSubscription
  usage : Usage
deriving DecidableEq, Repr

/-- `UserSchema.methods.hasProAccess`. -/
def hasProAccess (u : UserRec) : Bool :=
  u.role == .pro || u.role == .admin ||
    (u.subscription.status == .active && u.subscription.plan == .pro)

/-- `UserSchema.methods.canUseResumeAnalysis`: if the month difference since
`usage.lastResetDate` is positive, zero the counter and update the reset
date on the document, then test `resumeAnalysisCount < 3`. The mutated
document is returned alongside the boolean (JS mutates `this`). -/
def canUseResumeAnalysis (u : UserRec) (now : Date) : UserRec × Bool :=
  if hasProAccess u then (u, true)
  else
    let monthDiff := now.month - u.usage.lastResetDate.month +
      (now.year - u.usage.lastResetDate.year) * 12
    let u' :=
      if monthDiff > 0 then
        { u with usage := { u.usage with resumeAnalysisCount := 0, lastResetDate := now } }
      else u
    (u', u'.usage.resumeAnalysisCount < 3)

/-- `UserSchema.methods.canUseInterview`. -/
def canUseInterview (u : UserRec) : Bool :=
  if hasProAccess u then true else u.usage.interviewSessionsCount < 1

/-- The source's `ApiError`: a message plus an HTTP status code. -/
structure ApiErr where
  message : String
  statusCode : Int
deriving DecidableEq, Repr

/-- `ApiError.notFound`. -/
def ApiErr.notFound (msg : String) : ApiErr := ⟨msg, 404⟩

/-- `ApiError.conflict`. -/
def ApiErr.conflict (msg : String) : ApiErr := ⟨msg, 409⟩

/-- The result object of `SubscriptionService.checkFeatureAccess`. -/
structure AccessResult where
  hasAccess : Bool
  limit : Option Int
  used : Option Int
  message : Option String
deriving DecidableEq, Repr

/-- The `freeLimits` table of `checkFeatureAccess` combined with the JS
fallback `freeLimits[featureName] || 0`. -/
def freeLimits (name : String) : Int :=
  if name = "resumeAnalysis" then 3
  else if name = "interviews" then 1
  else if name = "jobMatches" then 0
  else if name = "linkedInReview" then 1
  else if name = "roadmaps" then 1
  else 0

/-- The JS lookup `user.usage[featureName + "Count"] || 0`: the computed key
is matched against the actual keys of `User.usage`, anything else is
`undefined` and falls back to 0. -/
def usageCountLookup (usage : Usage) (name : String) : Int :=
  if name ++ "Count" = "resumeAnalysisCount" then usage.resumeAnalysisCount
  else if name ++ "Count" = "interviewSessionsCount" then usage.interviewSessionsCount
  else 0

/-- `SubscriptionService.checkFeatureAccess`. Without a Subscription record it
takes the free-tier path over `User.usage`; with one it inspects
`features[featureName]` and applies the monthly-limit logic. -/
def checkFeatureAccess (subM : Option Subscription) (userM : Option UserRec)
    (name : String) : AccessResult :=
  match subM with
  | Option.none =>
    let used : Int :=
      match userM with
      | Option.none => 0
      | Option.some u => usageCountLookup u.usage name
    let limit := freeLimits name
    { hasAccess := used < limit
      limit := Option.some limit
      used := Option.some used
      message :=
        if used ≥ limit then Option.some "Free tier limit reached. Upgrade to Pro."
        else Option.none }
  | Option.some s =>
    let feature := s.features.lookup name
    if ¬ feature.isObject then
      { hasAccess := false, limit := Option.none, used := Option.none
        message := Option.some "Feature not available" }
    else if ¬ feature.enabledFlag then
      { hasAccess := false, limit := Option.none, used := Option.none
        message := Option.some "Feature not enabled for your plan" }
    else
      let limit := feature.limitField
      let used := feature.usedField
      if limit = -1 then
        { hasAccess := true, limit := Option.some (-1), used := Option.some used
          message := Option.none }
      else
        { hasAccess := used < limit
          limit := Option.some limit
          used := Option.some used
          message :=
            if used ≥ limit then Option.some "Monthly limit reached. Upgrade your plan."
            else Option.none }

/-- Free-tier branch of `SubscriptionService.incrementFeatureUsage`: the
computed key `featureName + "Count"` is incremented only when it is an
actual key of `User.usage`. -/
def incrementUserUsage (u : UserRec) (name : String) : UserRec :=
  if name ++ "Count" = "resumeAnalysisCount" then
    { u with usage := { u.usage with resumeAnalysisCount := u.usage.resumeAnalysisCount + 1 } }
  else if name ++ "Count" = "interviewSessionsCount" then
    { u with usage := { u.usage with interviewSessionsCount := u.usage.interviewSessionsCount + 1 } }
  else u

/-- `SubscriptionService.incrementFeatureUsage`: with a Subscription record,
delegate to the schema's `incrementUsage`; otherwise bump `User.usage`. -/
def incrementFeatureUsage (subM : Option Subscription) (userM : Option UserRec)
    (name : String) : Option Subscription × Option UserRec :=
  match subM with
  | Option.some s => (Option.some (s.incrementUsage name), userM)
  | Option.none =>
    match userM with
    | Option.some u => (Option.none, Option.some (incrementUserUsage u name))
    | Option.none => (Option.none, Option.none)

/-- `SubscriptionService.activateSubscription` on a found subscription: set
status to active, record the stripe subscription ref, save (plan is not
modified, so the pre-save middleware leaves `features` alone), then
synchronously update the linked User document when it exists. -/
def activateSubscription (sub : Subscription) (userM : Option UserRec)
    (stripeRef : String) : Subscription × Option UserRec :=
  let sub' := saveSubscription
    { sub with status := .active
               paymentDetails := { sub.paymentDetails with stripeSubscriptionId := Option.some stripeRef } }
    false
  let user' := userM.map fun u =>
    { u with role := .pro
             subscription := { u.subscription with
               status := .active
               plan := sub'.plan
               startDate := Option.some sub'.startDate
               endDate := Option.some sub'.endDate
               stripeSubscriptionId := Option.some stripeRef } }
  (sub', user')

/-- `SubscriptionService.cancelSubscription`: the lookup
`findOne({userId, status: 'active'})` finds the user's subscription only if
its status is active (there is at most one per user); with no match the
call throws `ApiError.notFound('No active subscription found')`. On a match
it sets status to cancelled, stamps `cancellation`, saves (plan untouched),
and downgrades the linked User to role free. -/
def cancelSubscription (subM : Option Subscription) (userM : Option UserRec)
    (now : Date) (reason feedback : Option String) :
    Except ApiErr (Subscription × Option UserRec) :=
  match subM with
  | Option.some sub =>
    if sub.status = .active then
      let sub' := saveSubscription
        { sub with status := .cancelled
                   cancellation := Option.some ⟨now, reason, feedback⟩ }
        false
      let user' := userM.map fun u =>
        { u with role := .free
                 subscription := { u.subscription with status := .cancelled } }
      .ok (sub', user')
    else .error (ApiErr.notFound "No active subscription found")
  | Option.none => .error (ApiErr.notFound "No active subscription found")

/-- An inbound payment-provider webhook event, as destructured by
`SubscriptionService.handleWebhookEvent` (only the fields it reads). -/
inductive WebhookEvent where
  | checkoutSessionCompleted (metadataSubscriptionId : String) (sessionSubscription : String)
  | invoicePaymentSucceeded (invoiceSubscription : String)
  | invoicePaymentFailed (invoiceSubscription : String)
  | customerSubscriptionDeleted (id : String)
  | unhandled (eventType : String)
deriving DecidableEq, Repr

/-- `SubscriptionService.handleWebhookEvent` over a world holding the one
subscription the event's ids refer to, plus its linked user:
`checkout.session.completed` calls `activateSubscription`; the
`invoice.payment_succeeded`, `invoice.payment_failed` and
`customer.subscription.deleted` branches only log and change nothing. -/
def handleWebhookEvent (sub : Subscription) (userM : Option UserRec) :
    WebhookEvent → Subscription × Option UserRec
  | .checkoutSessionCompleted _ sessionSub => activateSubscription sub userM sessionSub
  | .invoicePaymentSucceeded _ => (sub, userM)
  | .invoicePaymentFailed _ => (sub, userM)
  | .customerSubscriptionDeleted _ => (sub, userM)
  | .unhandled _ => (sub, userM)

/-! Concrete fixtures for scenario-level statements. -/

/-- January 2024 (JS `getMonth() = 0`). -/
def jan2024 : Date := ⟨2024, 0⟩

/-- March 2024, two calendar months after January 2024. -/
def mar2024 : Date := ⟨2024, 2⟩

/-- January 2025. -/
def jan2025 : Date := ⟨2025, 0⟩

/-- Payment details with no stripe ids recorded yet. -/
def basePayment : PaymentDetails := ⟨Option.none, Option.none⟩

/-- An active pro subscription carrying the pro catalog template. -/
def proSub : Subscription :=
  { plan := .pro, status := .active, startDate := jan2024, endDate := jan2025
    paymentDetails := basePayment, features := planFeatures .pro
    cancellation := Option.none, renewals := [] }

/-- The pro subscription after five mid-period resume analyses. -/
def proSubUsed5 : Subscription :=
  { proSub with features := { planFeatures .pro with resumeAnalysis := ⟨true, -1, 5⟩ } }

/-- The pro subscription with jobMatches at its weekly limit (10 of 10). -/
def proSubJob10 : Subscription :=
  { proSub with features := { planFeatures .pro with jobMatches := ⟨true, 10, 10⟩ } }

/-- The pro subscription still awaiting payment confirmation. -/
def pendingSub : Subscription := { proSub with status := .pending }

/-- An active subscription on the free catalog template (interviews has
monthlyLimit 1, used 0). -/
def freeActiveSub : Subscription :=
  { plan := .free, status := .active, startDate := jan2024, endDate := jan2025
    paymentDetails := basePayment, features := planFeatures .free
    cancellation := Option.none, renewals := [] }

/-- A `User.subscription` sub-document of a user who never subscribed. -/
def baseUserSub : UserSubscription :=
  ⟨.none, .free, Option.none, Option.none, Option.none, Option.none⟩

/-- A free user who exhausted the 3 monthly resume analyses in January. -/
def freeUserRA3 : UserRec :=
  { role := .free, subscription := baseUserSub, usage := ⟨3, 0, jan2024⟩ }

/-- A free user with 2 resume analyses and 1 interview session recorded. -/
def freeUserIv1 : UserRec :=
  { role := .free, subscription := baseUserSub, usage := ⟨2, 1, jan2024⟩ }

/-! Interleaving model for the check-then-increment sequence. A request
first runs `checkFeatureAccess` (one read of the stored subscription),
then, when allowed, runs the service's increment (a fresh read of the
stored subscription followed by a write). Each of the two operations is a
separate atomic step on the shared document, exactly as the two separate
database round-trips in the source. -/

/-- Local state of one request: 0 = about to check, 1 = checked (decision
recorded in `allowed`), 2 = finished. -/
structure ProcState where
  phase : Nat
  allowed : Bool
deriving DecidableEq, Repr

/-- A request that has not run yet. -/
def initProc : ProcState := ⟨0, false⟩

/-- One atomic step of a request against the shared subscription document. -/
def raceStep (userM : Option UserRec) (name : String) :
    Subscription × ProcState → Subscription × ProcState
  | (sub, p) =>
    match p.phase with
    | 0 => (sub, ⟨1, (checkFeatureAccess (Option.some sub) userM name).hasAccess⟩)
    | 1 => (if p.allowed then sub.incrementUsage name else sub, ⟨2, p.allowed⟩)
    | _ => (sub, p)

/-- Run a schedule over two concurrent requests A and B; `false` schedules a
step of A, `true` a step of B. -/
def runRace (userM : Option UserRec) (name : String) :
    List Bool → Subscription × ProcState × ProcState →
    Subscription × ProcState × ProcState
  | [], st => st
  | pid :: rest, (sub, pA, pB) =>
    if pid then
      let s := raceStep userM name (sub, pB)
      runRace userM name rest (s.1, pA, s.2)
    else
      let s := raceStep userM name (sub, pA)
      runRace userM name rest (s.1, s.2, pB)

/-- Claim C1, as stated, is false: a mid-period plan swap from pro to
enterprise does not preserve `used` counters. Here resumeAnalysis has
`used = 5` before the swap and `used = 0` after it — the pre-save
middleware replaces the whole features structure with the enterprise
template. -/
theorem plan_swap_counterexample :
    proSubUsed5.features.resumeAnalysis.used = 5 ∧
    (swapPlan proSubUsed5 .enterprise).features.resumeAnalysis.used = 0 ∧
    (swapPlan proSubUsed5 .enterprise).features = planFeatures .enterprise := by
  decide

/-- Claim C1 amended: a plan swap recomputes the features structure from the
plan catalog template for the new plan, and that template carries `used = 0`
for every counted feature — the current `used` counters are reset by the
swap, not preserved. -/
theorem plan_swap_recomputes_template (sub : Subscription) (p : Plan) :
    (swapPlan sub p).features = planFeatures p ∧
    (planFeatures p).resumeAnalysis.used = 0 ∧
    (planFeatures p).interviews.used = 0 ∧
    (planFeatures p).jobMatches.used = 0 ∧
    (planFeatures p).linkedInReview.used = 0 := by
  refine ⟨rfl, ?_, ?_, ?_, ?_⟩ <;> cases p <;> rfl

/-- Claim C2: on a pro subscription with `jobMatches.weeklyLimit = 10` and
`used = 10`, the access check does not deny: `checkFeatureAccess` looks
only for a `monthlyLimit` field, the jobMatches object has none, so the
limit is taken to be -1 and the check reports unlimited access; the
schema's `checkUsageLimit` likewise returns true. -/
theorem weekly_limit_ignored_bug :
    proSubJob10.features.jobMatches.weeklyLimit = 10 ∧
    proSubJob10.features.jobMatches.used = 10 ∧
    checkFeatureAccess (Option.some proSubJob10) Option.none "jobMatches" =
      { hasAccess := true, limit := Option.some (-1), used := Option.some 10
        message := Option.none } ∧
    checkUsageLimit proSubJob10.features "jobMatches" = true := by
  decide

/-- Claim C3, as stated, is false: on an active subscription with an empty
renewals list, the webhook handler leaves a `customer.subscription.deleted`
event without a cancellation (status stays active) and an
`invoice.payment_failed` event without an appended renewal record — both
branches only log. -/
theorem webhook_counterexample :
    proSub.status = SubStatus.active ∧ proSub.renewals = [] ∧
    handleWebhookEvent proSub Option.none (.customerSubscriptionDeleted "sub_ext") =
      (proSub, Option.none) ∧
    handleWebhookEvent proSub Option.none (.invoicePaymentFailed "in_1") =
      (proSub, Option.none) ∧
    handleWebhookEvent proSub Option.none (.invoicePaymentSucceeded "in_1") =
      (proSub, Option.none) := by
  decide

/-- Claim C3 amended: of the four mapped event types only
`checkout.session.completed` triggers a lifecycle call (activation with the
session's subscription reference); `invoice.payment_succeeded`,
`invoice.payment_failed` and `customer.subscription.deleted` are logged
only and change neither the subscription nor the user. -/
theorem webhook_mapping (sub : Subscription) (userM : Option UserRec)
    (a b c d e : String) :
    handleWebhookEvent sub userM (.checkoutSessionCompleted a b) =
      activateSubscription sub userM b ∧
    handleWebhookEvent sub userM (.invoicePaymentSucceeded c) = (sub, userM) ∧
    handleWebhookEvent sub userM (.invoicePaymentFailed d) = (sub, userM) ∧
    handleWebhookEvent sub userM (.customerSubscriptionDeleted e) = (sub, userM) :=
  ⟨rfl, rfl, rfl, rfl⟩

/-- Claim C4, as stated, is false: with the interviews feature at
`limit = 1, used = 0`, the interleaving check-A, check-B, increment-A,
increment-B makes both requests pass the check (two successes) and drives
`used` to 2 — the check and the increment are two separate reads of the
stored document, not one atomic critical section. -/
theorem race_counterexample :
    freeActiveSub.features.interviews = ⟨true, 1, 0⟩ ∧
    (runRace Option.none "interviews" [false, true, false, true]
      (freeActiveSub, initProc, initProc)).2.1.allowed = true ∧
    (runRace Option.none "interviews" [false, true, false, true]
      (freeActiveSub, initProc, initProc)).2.2.allowed = true ∧
    (runRace Option.none "interviews" [false, true, false, true]
      (freeActiveSub, initProc, initProc)).1.features.interviews.used = 2 := by
  decide

/-- Claim C4 amended: for every subscription whose interviews feature is
enabled with limit 1 and used 0, running the two check-then-increment
requests serially yields exactly one success and one denial, but the racy
interleaving (both checks before either increment) yields two successes —
the code provides no atomicity across the two steps. -/
theorem race_serial_vs_interleaved (sub : Subscription)
    (h : sub.features.interviews = ⟨true, 1, 0⟩) :
    (runRace Option.none "interviews" [false, false, true, true]
      (sub, initProc, initProc)).2.1.allowed = true ∧
    (runRace Option.none "interviews" [false, false, true, true]
      (sub, initProc, initProc)).2.2.allowed = false ∧
    (runRace Option.none "interviews" [false, true, false, true]
      (sub, initProc, initProc)).2.1.allowed = true ∧
    (runRace Option.none "interviews" [false, true, false, true]
      (sub, initProc, initProc)).2.2.allowed = true := by
  simp [runRace, raceStep, checkFeatureAccess, Features.lookup, FeatureValue.isObject,
        FeatureValue.enabledFlag, FeatureValue.limitField, FeatureValue.usedField,
        Subscription.incrementUsage, Features.incrementUsed, saveSubscription,
        initProc, h]

/-- Witness for `race_serial_vs_interleaved` at the concrete free-template
subscription. -/
theorem race_serial_vs_interleaved_witness :
    (runRace Option.none "interviews" [false, false, true, true]
      (freeActiveSub, initProc, initProc)).2.1.allowed = true ∧
    (runRace Option.none "interviews" [false, false, true, true]
      (freeActiveSub, initProc, initProc)).2.2.allowed = false ∧
    (runRace Option.none "interviews" [false, true, false, true]
      (freeActiveSub, initProc, initProc)).2.1.allowed = true ∧
    (runRace Option.none "interviews" [false, true, false, true]
      (freeActiveSub, initProc, initProc)).2.2.allowed = true :=
  race_serial_vs_interleaved freeActiveSub (by decide)

/-- Claim C5: for a free user with no Subscription record,
`usage.resumeAnalysisCount = 3` and a last reset two calendar months back,
`SubscriptionService.checkFeatureAccess` performs no reset and denies
(`hasAccess = false`, `used = 3`), while the User model's own
`canUseResumeAnalysis` — the gate the resume-upload path uses — does reset
the counter (to 0, stamping the new date) and allows. The service check
contradicts the model's documented monthly-reset policy. -/
theorem lazy_reset_missing_bug :
    freeUserRA3.usage.resumeAnalysisCount = 3 ∧
    checkFeatureAccess Option.none (Option.some freeUserRA3) "resumeAnalysis" =
      { hasAccess := false, limit := Option.some 3, used := Option.some 3
        message := Option.some "Free tier limit reached. Upgrade to Pro." } ∧
    (canUseResumeAnalysis freeUserRA3 mar2024).2 = true ∧
    (canUseResumeAnalysis freeUserRA3 mar2024).1.usage.resumeAnalysisCount = 0 ∧
    (canUseResumeAnalysis freeUserRA3 mar2024).1.usage.lastResetDate = mar2024 := by
  decide

/-- Claim C6, as stated, is false on the error type: cancelling while the
subscription is pending fails with the 404 not-found error
"No active subscription found" (the lookup filters on status active), not
with an invalid-state error — no such error kind exists in the code. -/
theorem cancel_pending_counterexample :
    pendingSub.status = SubStatus.pending ∧
    cancelSubscription (Option.some pendingSub) Option.none jan2024
      Option.none Option.none =
      .error ⟨"No active subscription found", 404⟩ := by
  exact ⟨rfl, rfl⟩

/-- Claim C6 amended: cancel succeeds only from status active. On a
non-active subscription it fails with `ApiError.notFound
"No active subscription found"` and changes nothing; on an active one it
sets status to cancelled, stamps the cancellation record, downgrades the
linked user's role to free, and leaves `features` (hence every `used`
counter) unchanged. -/
theorem cancel_requires_active (sub : Subscription) (u : UserRec) (now : Date)
    (reason feedback : Option String) :
    (sub.status ≠ SubStatus.active →
      cancelSubscription (Option.some sub) (Option.some u) now reason feedback =
        .error (ApiErr.notFound "No active subscription found")) ∧
    (sub.status = SubStatus.active →
      cancelSubscription (Option.some sub) (Option.some u) now reason feedback =
        .ok ({ sub with status := .cancelled
                        cancellation := Option.some ⟨now, reason, feedback⟩ },
             Option.some { u with
               role := .free
               subscription := { u.subscription with status := .cancelled } })) := by
  constructor
  · intro h
    simp [cancelSubscription, h]
  · intro h
    simp [cancelSubscription, h, saveSubscription]

/-- Witness for `cancel_requires_active`: both branches at concrete inputs. -/
theorem cancel_requires_active_witness :
    cancelSubscription (Option.some pendingSub) (Option.some freeUserRA3) jan2024
      Option.none Option.none =
      .error (ApiErr.notFound "No active subscription found") ∧
    cancelSubscription (Option.some proSub) (Option.some freeUserRA3) jan2024
      Option.none Option.none =
      .ok ({ proSub with status := .cancelled
                         cancellation := Option.some ⟨jan2024, Option.none, Option.none⟩ },
           Option.some { freeUserRA3 with
             role := .free
             subscription := { freeUserRA3.subscription with status := .cancelled } }) :=
  ⟨(cancel_requires_active pendingSub freeUserRA3 jan2024 Option.none Option.none).1
      (by decide),
   (cancel_requires_active proSub freeUserRA3 jan2024 Option.none Option.none).2 rfl⟩

/-- Claim C7 confirmed: activation is idempotent. Calling
`activateSubscription` a second time with the same payment reference
returns exactly the state of the first call; after activation the status is
active and the activation itself leaves `features` (hence every `used`
counter) untouched, since the save does not modify `plan`. -/
theorem activate_idempotent (sub : Subscription) (userM : Option UserRec)
    (ref : String) :
    activateSubscription (activateSubscription sub userM ref).1
      (activateSubscription sub userM ref).2 ref =
      activateSubscription sub userM ref ∧
    (activateSubscription sub userM ref).1.status = SubStatus.active ∧
    (activateSubscription sub userM ref).1.features = sub.features := by
  cases userM <;> exact ⟨rfl, rfl, rfl⟩

/-- Claim C8, as stated, is false: resolving the unknown feature name
"resumeBuilder" does not fail — with a subscription it returns the
ordinary denial "Feature not available", and without one it returns the
free-tier denial with limit 0; no error of any kind is raised. -/
theorem unknown_feature_counterexample :
    checkFeatureAccess (Option.some proSub) Option.none "resumeBuilder" =
      { hasAccess := false, limit := Option.none, used := Option.none
        message := Option.some "Feature not available" } ∧
    checkFeatureAccess Option.none (Option.some freeUserRA3) "resumeBuilder" =
      { hasAccess := false, limit := Option.some 0, used := Option.some 0
        message := Option.some "Free tier limit reached. Upgrade to Pro." } := by
  decide

/-- Claim C8 amended: for a feature name that is not a key of the features
structure, the check on a subscription returns the ordinary denial result
with message "Feature not available" (never a typed unknown-feature
error — none exists in the code). -/
theorem unknown_feature_plain_denial (s : Subscription) (userM : Option UserRec)
    (name : String) (h : s.features.lookup name = FeatureValue.missing) :
    checkFeatureAccess (Option.some s) userM name =
      { hasAccess := false, limit := Option.none, used := Option.none
        message := Option.some "Feature not available" } := by
  simp [checkFeatureAccess, h, FeatureValue.isObject]

/-- Witness for `unknown_feature_plain_denial` at a concrete unknown name. -/
theorem unknown_feature_plain_denial_witness :
    checkFeatureAccess (Option.some freeActiveSub) Option.none "careerCoach" =
      { hasAccess := false, limit := Option.none, used := Option.none
        message := Option.some "Feature not available" } :=
  unknown_feature_plain_denial freeActiveSub Option.none "careerCoach" (by decide)

/-- Claim C9 confirmed: on a feature carrying a `monthlyLimit`, the schema's
`checkUsageLimit` returns, for limit at least 0, exactly `used < limit`
(so limit 0 with a non-negative counter always denies), and for the -1
sentinel it returns true regardless of `used`. -/
theorem checkUsageLimit_spec (fs : Features) (name : String) (f : MonthlyFeature)
    (h : fs.lookup name = FeatureValue.monthly f) :
    (0 ≤ f.monthlyLimit →
      checkUsageLimit fs name = decide (f.used < f.monthlyLimit)) ∧
    (f.monthlyLimit = 0 → 0 ≤ f.used → checkUsageLimit fs name = false) ∧
    (f.monthlyLimit = -1 → checkUsageLimit fs name = true) := by
  unfold checkUsageLimit
  rw [h]
  refine ⟨?_, ?_, ?_⟩
  · intro hl
    have hne : f.monthlyLimit ≠ -1 := by omega
    simp [hne]
  · intro hl hu
    simp only [hl, decide_eq_false_iff_not, Bool.or_eq_false_iff, beq_eq_false_iff_ne,
      ne_eq]
    omega
  · intro hl
    simp [hl]

/-- Witness for `checkUsageLimit_spec` on the free template's resumeAnalysis
feature (limit 3, used 0). -/
theorem checkUsageLimit_spec_witness :
    checkUsageLimit (planFeatures Plan.free) "resumeAnalysis" = true := by
  have h := (checkUsageLimit_spec (planFeatures Plan.free) "resumeAnalysis"
    ⟨true, 3, 0⟩ (by decide)).1 (by decide)
  simpa using h

/-- Claim C10: for a user without a Subscription record the free-tier check
reads `usage[featureName + "Count"]`. For resumeAnalysis that key is
`resumeAnalysisCount` and the stored counter (here 2) is reported; for
interviews the computed key `interviewsCount` does not exist in
`User.usage`, so `used` is 0 and access is granted even though the stored
`interviewSessionsCount = 1` has exhausted the free limit — the User
model's own `canUseInterview` denies the same user. -/
theorem interviews_used_lookup_bug :
    freeUserIv1.usage.interviewSessionsCount = 1 ∧
    checkFeatureAccess Option.none (Option.some freeUserIv1) "interviews" =
      { hasAccess := true, limit := Option.some 1, used := Option.some 0
        message := Option.none } ∧
    canUseInterview freeUserIv1 = false ∧
    freeUserIv1.usage.resumeAnalysisCount = 2 ∧
    checkFeatureAccess Option.none (Option.some freeUserIv1) "resumeAnalysis" =
      { hasAccess := true, limit := Option.some 3, used := Option.some 2
        message := Option.none } := by
  decide
